import Mathlib

/-!
Verification of the auth-service credential core against its source.

The development shallowly embeds the parts of the Go repository that the
properties below are about:

* the JWT token manager in internal/pkg/jwt (GenerateAccessToken,
  GenerateRefreshToken, ValidateToken), including the semantics of the
  golang-jwt/jwt/v5 parser it delegates to;
* the postgres-backed user repository (Create, GetByEmail,
  SaveRefreshToken, GetRefreshToken, DeleteRefreshToken) as transitions on
  an explicit store state, with an explicit flag per call that injects a
  storage failure, since every repository method in Go returns an error;
* the authentication engine of internal/usecase (Register, Login, Refresh,
  generatePair), following the variant whose Refresh consumes a refresh
  record with a separate read followed by a separate delete;
* the HTTP error classifier handleError of internal/delivery/http.

Effectful inputs of the Go code that are produced outside the embedded
functions (the random refresh value, the bcrypt hash and check of the
missing internal/pkg/hash package, wall-clock time) are threaded as
explicit parameters.
-/

namespace AuthService

/-! ## IEEE-754 binary64 decoding of integer JSON numbers

The Go service stores the subject claim as an int64, serialises it as a
JSON number, and golang-jwt decodes the payload with encoding/json into a
map whose numbers are float64.  ParseFloat is correctly rounded, so an
integer-valued JSON number decodes to the nearest binary64 value, ties to
even.  The functions below compute that rounding with integer arithmetic.
Magnitudes up to 2^53 are exact; above, the excess low bits are rounded
away.  The fuel bound 200 covers every integer of magnitude below 2^200,
far beyond the int64 inputs the service produces. -/

/-- Number of low bits that do not fit in a 53-bit significand: the least
k with v / 2^k < 2^53, computed by fuelled division. -/
def excessBits : Nat → Nat → Nat
  | 0, _ => 0
  | fuel + 1, v => if v < 2 ^ 53 then 0 else excessBits fuel (v / 2) + 1

/-- Round a natural number of magnitude above 2^53 to the nearest multiple
of 2^k representable with a 53-bit significand, ties to even. -/
def roundMantissa (v : Nat) : Nat :=
  let k := excessBits 200 v
  let q := v / 2 ^ k
  let r := v % 2 ^ k
  let half := 2 ^ (k - 1)
  let q' := if half < r ∨ (r = half ∧ q % 2 = 1) then q + 1 else q
  q' * 2 ^ k

/-- The binary64 value nearest to the integer n (the value encoding/json
hands to the claims map for an integer JSON number). -/
def dblRound (n : Int) : Int :=
  if n.natAbs ≤ 2 ^ 53 then n
  else if 0 ≤ n then (roundMantissa n.natAbs : Int)
  else -(roundMantissa n.natAbs : Int)

/-- Go conversion int64(f) of an integral float64; out-of-range values are
implementation specific in Go and are modelled as the amd64 result. -/
def goInt64 (v : Int) : Int :=
  if v < -(2 ^ 63) ∨ 2 ^ 63 - 1 < v then -(2 ^ 63) else v

theorem dblRound_of_small {n : Int} (h : n.natAbs ≤ 2 ^ 53) : dblRound n = n := by
  unfold dblRound
  rw [if_pos h]

theorem goInt64_of_small {n : Int} (h : n.natAbs ≤ 2 ^ 53) : goInt64 n = n := by
  unfold goInt64
  rw [if_neg]
  push_neg
  have h1 : (n.natAbs : Int) ≤ 2 ^ 53 := by exact_mod_cast h
  have h2 : n ≤ (n.natAbs : Int) := Int.le_natAbs
  have h3 : -(n.natAbs : Int) ≤ n := by
    rcases Int.natAbs_eq n with he | he <;> omega
  constructor <;> omega

/-! ## The token model

A well-formed JWT is modelled as its decoded header algorithm, its decoded
claims map, and its signature.  A correct HMAC signature over the header
and payload under a key is represented by the hmacSig constructor applied
to the algorithm, the key and the payload; any other signature value fails
verification, which is exactly the observable behaviour of HMAC
verification for a party that knows the key. -/

/-- Signing algorithms distinguished by the code paths under study. -/
inductive Alg
  | HS256
  | HS384
  | HS512
  | RS256
  | algNone
  deriving DecidableEq

/-- The keyfunc in ValidateToken accepts every member of the HMAC family
(jwt.SigningMethodHMAC), not only HS256. -/
def Alg.isHMAC : Alg → Bool
  | .HS256 => true
  | .HS384 => true
  | .HS512 => true
  | _ => false

/-- A decoded JSON claim value (integer numbers suffice for the claims the
service reads and writes). -/
inductive JVal
  | num (n : Int)
  | str (s : String)
  | nul
  deriving DecidableEq

/-- A JWT signature: either a correct HMAC over the given payload with the
given algorithm and key, or any other byte string. -/
inductive Sig
  | hmacSig (alg : Alg) (key : String) (payload : List (String × JVal))
  | badSig (bytes : String)
  deriving DecidableEq

/-- A structurally well-formed JWT after base64/JSON decoding. -/
structure JwtToken where
  alg : Alg
  claims : List (String × JVal)
  sig : Sig
  deriving DecidableEq

/-- Input to ValidateToken: a string that fails JWT decoding, or a decoded
token. -/
inductive TokenStr
  | malformed (s : String)
  | wf (t : JwtToken)
  deriving DecidableEq

/-- GenerateAccessToken of internal/pkg/jwt: claims sub, exp, iat; signed
HS256 with the symmetric secret.  time.Now is the now parameter and the
duration is in seconds. -/
def GenerateAccessToken (secretKey : String) (userID : Int) (durationSecs : Int)
    (now : Int) : TokenStr :=
  let claims : List (String × JVal) :=
    [("sub", JVal.num userID), ("exp", JVal.num (now + durationSecs)),
     ("iat", JVal.num now)]
  .wf { alg := .HS256, claims := claims, sig := .hmacSig .HS256 secretKey claims }

/-- Outcome of ValidateToken.  The Go function returns (int64, error); a
failed dynamic type assertion on the sub claim does not return at all but
panics, which the embedding records as a distinct outcome. -/
inductive VResult
  | ok (userID : Int)
  | errExpired
  | errInvalid (msg : String)
  | panicked
  deriving DecidableEq

/-- Subject extraction of ValidateToken: the unchecked type assertion
claims["sub"].(float64) succeeds only on a number and panics otherwise. -/
def extractSub (claims : List (String × JVal)) : VResult :=
  match claims.lookup "sub" with
  | some (JVal.num n) => .ok (goInt64 (dblRound n))
  | _ => .panicked

/-- jwt/v5 claims validation after the exp check: nbf is validated when
present, iat is not validated by default.  MapClaims.parseNumericDate
treats a decoded float64 claim equal to 0 as if the claim were absent, so
an nbf of 0 imposes no lower time bound. -/
def checkNbf (claims : List (String × JVal)) (now : Int) : VResult :=
  match claims.lookup "nbf" with
  | some (JVal.num b) =>
      if dblRound b = 0 then extractSub claims
      else if now < dblRound b then .errInvalid "token is not valid yet"
      else extractSub claims
  | some _ => .errInvalid "invalid claims"
  | none => extractSub claims

/-- ValidateToken of internal/pkg/jwt composed with the jwt/v5 parser:
reject non-HMAC algorithms in the keyfunc, verify the signature, then
validate claims (a token is expired when now is not before exp), then
extract the subject.  Signature failure is reported before claims
validation, so an expired token with a bad signature is invalid, not
expired.  Per MapClaims.parseNumericDate, an exp whose decoded float64
value is 0 counts as no expiry at all: such a signed token is accepted and
never reported expired.  The decoded values this model manipulates are
exact for magnitudes up to 2^53 and correctly rounded far beyond every
int64 the service writes; the region above 2^63, where the Go library
additionally overflows the int64 inside newNumericDateFromSeconds, is
outside the domain the expiry theorem below quantifies over. -/
def ValidateToken (secretKey : String) (ts : TokenStr) (now : Int) : VResult :=
  match ts with
  | .malformed _ => .errInvalid "token is malformed"
  | .wf t =>
    if t.alg.isHMAC = false then .errInvalid "unexpected signing method"
    else if t.sig ≠ Sig.hmacSig t.alg secretKey t.claims then
      .errInvalid "signature is invalid"
    else
      match t.claims.lookup "exp" with
      | some (JVal.num e) =>
          if dblRound e = 0 then checkNbf t.claims now
          else if dblRound e ≤ now then .errExpired else checkNbf t.claims now
      | some _ => .errInvalid "invalid claims"
      | none => checkNbf t.claims now

/-! ## Error values

Go errors observable by the engine and its callers.  The sentinels of the
internal/domain package are distinct named constructors; errors.New at a
use site yields a fresh error carrying only its message and matching no
sentinel; the postgres driver surfaces a unique-constraint violation, a
no-rows result, or another storage error. -/

inductive GoErr
  | invalidCredentials
  | userNotFound
  | refreshTokenNotFound
  | tokenExpired
  | emailExists
  | fresh (msg : String)
  | pgUniqueViolation
  | pgNoRows
  | storage (msg : String)
  deriving DecidableEq

/-- handleError of internal/delivery/http/handler.go: errors.Is against
each domain sentinel chooses the HTTP status; a fresh error or a raw
driver error matches no branch and falls to the internal-error default. -/
def handleError : GoErr → Nat
  | .invalidCredentials => 401
  | .refreshTokenNotFound => 401
  | .emailExists => 409
  | _ => 500

/-! ## Data model and the credential store -/

/-- internal/domain User (the created-at timestamp is irrelevant to every
claim and omitted). -/
structure User where
  id : Int
  username : String
  email : String
  passwordHash : String
  deriving DecidableEq

/-- internal/domain TokenPair. -/
structure TokenPair where
  accessToken : String
  refreshToken : String
  deriving DecidableEq

/-- The Go zero value TokenPair{} returned on every failure path. -/
def emptyPair : TokenPair := ⟨"", ""⟩

/-- A row of the refresh_tokens table reachable from the repository
queries: owning user and expiry (unix seconds). -/
structure RefreshRecord where
  userId : Int
  expiresAt : Int
  deriving DecidableEq

/-- The durable state the repository methods read and write: the users
table and the refresh_tokens table keyed by the unique token value. -/
structure Store where
  users : List User
  tokens : List (String × RefreshRecord)
  deriving DecidableEq

/-! Each repository method takes a fault flag standing for the postgres
round trip failing on that particular call (every method returns error in
Go); a faulted call leaves the store unchanged. -/

/-- UserRepo.Create: INSERT INTO users; the UNIQUE constraint on email
rejects a duplicate with the raw driver error, which the method returns
unmapped.  The serial id is modelled as one past the current row count. -/
def createUser (st : Store) (username email passwordHash : String) (fault : Bool) :
    Except GoErr User × Store :=
  if fault then (.error (.storage "query failed"), st)
  else if st.users.any (fun u => u.email == email) then (.error .pgUniqueViolation, st)
  else
    let u : User := ⟨Int.ofNat st.users.length + 1, username, email, passwordHash⟩
    (.ok u, { st with users := st.users ++ [u] })

/-- UserRepo.GetByEmail: SELECT ... WHERE email = $1; no row yields the
driver not-found error. -/
def getByEmail (st : Store) (email : String) (fault : Bool) : Except GoErr User :=
  if fault then .error (.storage "query failed")
  else
    match st.users.find? (fun u => u.email == email) with
    | some u => .ok u
    | none => .error .pgNoRows

/-- UserRepo.SaveRefreshToken: INSERT INTO refresh_tokens; the UNIQUE
constraint on token rejects a duplicate value. -/
def saveRefreshToken (st : Store) (userID : Int) (tok : String) (expiresAt : Int)
    (fault : Bool) : Except GoErr Unit × Store :=
  if fault then (.error (.storage "exec failed"), st)
  else if (st.tokens.lookup tok).isSome then (.error .pgUniqueViolation, st)
  else (.ok (), { st with tokens := st.tokens ++ [(tok, ⟨userID, expiresAt⟩)] })

/-- UserRepo.GetRefreshToken: SELECT user_id, expires_at ... WHERE
token = $1. -/
def getRefreshToken (st : Store) (tok : String) (fault : Bool) :
    Except GoErr (Int × Int) :=
  if fault then .error (.storage "query failed")
  else
    match st.tokens.lookup tok with
    | some r => .ok (r.userId, r.expiresAt)
    | none => .error .pgNoRows

/-- UserRepo.DeleteRefreshToken: DELETE FROM refresh_tokens WHERE
token = $1 (deleting an absent token succeeds and changes nothing). -/
def deleteRefreshToken (st : Store) (tok : String) (fault : Bool) :
    Except GoErr Unit × Store :=
  if fault then (.error (.storage "exec failed"), st)
  else (.ok (), { st with tokens := st.tokens.filter (fun p => p.1 != tok) })

/-! ## The authentication engine

This follows the usecase variant that implements Refresh over the split
GetRefreshToken / DeleteRefreshToken repository calls.  The results of the
token manager calls inside generatePair are inputs: the access token
signing and the random refresh value generation happen outside the store
and can each fail (SigningFailure / EntropyFailure), which the engine
propagates. -/

/-- Outcomes of the two token manager calls made by generatePair, plus the
fault flag of its SaveRefreshToken call. -/
structure GenInput where
  accessRes : Except GoErr String
  refreshRes : Except GoErr String
  saveFault : Bool

/-- Fault flags for the store calls a single Refresh makes. -/
structure RefreshFaults where
  getFault : Bool
  delFault : Bool

/-- generatePair: mint the access token (15m TTL), mint the refresh value,
persist it with a 7-day expiry, and only then return the pair; every
failure path returns the zero TokenPair together with the error. -/
def generatePair (st : Store) (userID : Int) (g : GenInput) (now : Int) :
    (TokenPair × Option GoErr) × Store :=
  match g.accessRes with
  | .error e => ((emptyPair, some e), st)
  | .ok accessToken =>
    match g.refreshRes with
    | .error e => ((emptyPair, some e), st)
    | .ok refreshToken =>
      match saveRefreshToken st userID refreshToken (now + 7 * 24 * 3600) g.saveFault with
      | (.error e, st') => ((emptyPair, some e), st')
      | (.ok _, st') => ((⟨accessToken, refreshToken⟩, none), st')

/-- Register: hash the password, then repo.Create; both errors propagate
unmapped.  The hash result is an input because internal/pkg/hash is
consumed, not defined, by the embedded code; per the spec it is a salted
one-way hash whose value does not affect control flow here. -/
def Register (hashRes : Except GoErr String) (st : Store) (username email : String)
    (createFault : Bool) : Option GoErr × Store :=
  match hashRes with
  | .error e => (some e, st)
  | .ok h =>
    match createUser st username email h createFault with
    | (.error e, st') => (some e, st')
    | (.ok _, st') => (none, st')

/-- Login: look up the user by email; any lookup failure and a failed
password check both return the same fresh invalid-credentials error with
the zero pair; otherwise mint a pair.  The password check is the verify
contract of the missing internal/pkg/hash package, passed as a
predicate. -/
def Login (check : String → String → Bool) (st : Store) (email password : String)
    (getFault : Bool) (g : GenInput) (now : Int) :
    (TokenPair × Option GoErr) × Store :=
  match getByEmail st email getFault with
  | .error _ => ((emptyPair, some (.fresh "invalid credentials")), st)
  | .ok user =>
    if check password user.passwordHash = false then
      ((emptyPair, some (.fresh "invalid credentials")), st)
    else generatePair st user.id g now

/-- Refresh: read the record with GetRefreshToken, mapping any error to a
fresh invalid-refresh-token error; if expired (now strictly after the
stored expiry) delete it, ignoring the delete error, and fail with a fresh
expired error; otherwise delete it, again ignoring the delete error, and
mint a pair for the stored user. -/
def Refresh (st : Store) (refreshToken : String) (f : RefreshFaults) (g : GenInput)
    (now : Int) : (TokenPair × Option GoErr) × Store :=
  match getRefreshToken st refreshToken f.getFault with
  | .error _ => ((emptyPair, some (.fresh "invalid refresh token")), st)
  | .ok (userID, expiresAt) =>
    if expiresAt < now then
      ((emptyPair, some (.fresh "refresh token expired")),
        (deleteRefreshToken st refreshToken f.delFault).2)
    else
      generatePair (deleteRefreshToken st refreshToken f.delFault).2 userID g now

/-! ## Interleaved execution of two Refresh calls

The engine holds no in-process state, so two concurrent Refresh calls
interact only through the store; each repository call is one atomic store
access (a single SQL statement).  A single call is therefore a sequence of
atomic phases: the read, the delete (the expiry test between them touches
only local data and is bundled with the delete), and the save of the new
record (token minting between delete and save is store-free and is bundled
with the save).  A schedule interleaves the phases of the two calls. -/

/-- Program counter of one in-flight Refresh(r) execution. -/
inductive RPhase
  | start
  | haveRec (userID : Int) (expiresAt : Int)
  | toSave (userID : Int)
  | done (pair : TokenPair) (err : Option GoErr)
  deriving DecidableEq

/-- One atomic phase of a Refresh(r) execution whose minted access token
and refresh value are newAccess and newTok (store calls fault-free). -/
def rstep (st : Store) (r : String) (now : Int) (newAccess newTok : String) :
    RPhase → RPhase × Store
  | .start =>
    match getRefreshToken st r false with
    | .error _ => (.done emptyPair (some (.fresh "invalid refresh token")), st)
    | .ok (uid, ea) => (.haveRec uid ea, st)
  | .haveRec uid ea =>
    let d := deleteRefreshToken st r false
    if ea < now then (.done emptyPair (some (.fresh "refresh token expired")), d.2)
    else (.toSave uid, d.2)
  | .toSave uid =>
    match saveRefreshToken st uid newTok (now + 7 * 24 * 3600) false with
    | (.error e, st') => (.done emptyPair (some e), st')
    | (.ok _, st') => (.done ⟨newAccess, newTok⟩ none, st')
  | .done p e => (.done p e, st)

/-- Joint state of two in-flight Refresh(r) executions over one store. -/
structure TwoState where
  p1 : RPhase
  p2 : RPhase
  st : Store
  deriving DecidableEq

/-- Let the first (true) or second (false) execution take its next atomic
phase. -/
def twoStep (r : String) (now : Int) (a1 t1 a2 t2 : String) (s : TwoState)
    (first : Bool) : TwoState :=
  if first then
    let q := rstep s.st r now a1 t1 s.p1
    ⟨q.1, s.p2, q.2⟩
  else
    let q := rstep s.st r now a2 t2 s.p2
    ⟨s.p1, q.1, q.2⟩

/-- Run two Refresh(r) executions from a common store under a schedule. -/
def runTwo (st0 : Store) (r : String) (now : Int) (a1 t1 a2 t2 : String)
    (sched : List Bool) : TwoState :=
  sched.foldl (twoStep r now a1 t1 a2 t2) ⟨.start, .start, st0⟩

/-! ## Helper lemmas about the token table -/

theorem lookup_filter_self (l : List (String × RefreshRecord)) (r : String) :
    (l.filter (fun p => p.1 != r)).lookup r = none := by
  induction l with
  | nil => rfl
  | cons a t ih =>
    by_cases h : a.1 = r
    · simp [List.filter_cons, h, ih]
    · have hb : (r == a.1) = false := beq_eq_false_iff_ne.mpr (Ne.symm h)
      simp [List.filter_cons, List.lookup, h, hb, ih]

theorem lookup_append_none {l₁ l₂ : List (String × RefreshRecord)} {r : String}
    (h₁ : l₁.lookup r = none) (h₂ : l₂.lookup r = none) :
    (l₁ ++ l₂).lookup r = none := by
  induction l₁ with
  | nil => simpa using h₂
  | cons a t ih =>
    cases hbeq : r == a.1 with
    | true => simp [List.lookup, hbeq] at h₁
    | false =>
      simp only [List.lookup, hbeq] at h₁
      simpa [List.lookup, hbeq] using ih h₁

theorem lookup_singleton_none {tk r : String} {rec : RefreshRecord} (h : tk ≠ r) :
    ([(tk, rec)] : List (String × RefreshRecord)).lookup r = none := by
  have hb : (r == tk) = false := beq_eq_false_iff_ne.mpr (Ne.symm h)
  simp [List.lookup, hb]

/-! ## Further helper lemmas -/

theorem extractSub_ne_expired (claims : List (String × JVal)) :
    extractSub claims ≠ .errExpired := by
  unfold extractSub
  split <;> simp

theorem checkNbf_ne_expired (claims : List (String × JVal)) (now : Int) :
    checkNbf claims now ≠ .errExpired := by
  unfold checkNbf
  split
  · split
    · exact extractSub_ne_expired _
    · split
      · simp
      · exact extractSub_ne_expired _
  · simp
  · exact extractSub_ne_expired _

theorem validateToken_malformed (sk s : String) (now : Int) :
    ValidateToken sk (.malformed s) now = .errInvalid "token is malformed" := rfl

theorem validateToken_not_hmac {sk : String} {tok : JwtToken} {now : Int}
    (halg : tok.alg.isHMAC = false) :
    ValidateToken sk (.wf tok) now = .errInvalid "unexpected signing method" := by
  simp only [ValidateToken]
  rw [halg]
  simp

theorem validateToken_bad_sig {sk : String} {tok : JwtToken} {now : Int}
    (halg : tok.alg.isHMAC = true)
    (hsig : tok.sig ≠ Sig.hmacSig tok.alg sk tok.claims) :
    ValidateToken sk (.wf tok) now = .errInvalid "signature is invalid" := by
  simp only [ValidateToken]
  rw [halg, if_neg (by simp), if_pos hsig]

theorem validateToken_signed_exp (sk : String) (tok : JwtToken) (now e : Int)
    (halg : tok.alg.isHMAC = true)
    (hsig : tok.sig = Sig.hmacSig tok.alg sk tok.claims)
    (hexp : tok.claims.lookup "exp" = some (JVal.num e)) :
    ValidateToken sk (.wf tok) now =
      if dblRound e = 0 then checkNbf tok.claims now
      else if dblRound e ≤ now then .errExpired else checkNbf tok.claims now := by
  simp only [ValidateToken]
  rw [halg, if_neg (by simp), if_neg (by simp [hsig]), hexp]

theorem validateToken_signed_no_exp {sk : String} {tok : JwtToken} {now : Int}
    (halg : tok.alg.isHMAC = true)
    (hsig : tok.sig = Sig.hmacSig tok.alg sk tok.claims)
    (hexp : tok.claims.lookup "exp" = none) :
    ValidateToken sk (.wf tok) now = checkNbf tok.claims now := by
  simp only [ValidateToken]
  rw [halg, if_neg (by simp), if_neg (by simp [hsig]), hexp]

theorem validateToken_signed_exp_str {sk : String} {tok : JwtToken} {now : Int}
    {s2 : String} (halg : tok.alg.isHMAC = true)
    (hsig : tok.sig = Sig.hmacSig tok.alg sk tok.claims)
    (hexp : tok.claims.lookup "exp" = some (JVal.str s2)) :
    ValidateToken sk (.wf tok) now = .errInvalid "invalid claims" := by
  simp only [ValidateToken]
  rw [halg, if_neg (by simp), if_neg (by simp [hsig]), hexp]

theorem validateToken_signed_exp_nul {sk : String} {tok : JwtToken} {now : Int}
    (halg : tok.alg.isHMAC = true)
    (hsig : tok.sig = Sig.hmacSig tok.alg sk tok.claims)
    (hexp : tok.claims.lookup "exp" = some JVal.nul) :
    ValidateToken sk (.wf tok) now = .errInvalid "invalid claims" := by
  simp only [ValidateToken]
  rw [halg, if_neg (by simp), if_neg (by simp [hsig]), hexp]

theorem checkNbf_no_nbf {claims : List (String × JVal)} {now : Int}
    (h : claims.lookup "nbf" = none) : checkNbf claims now = extractSub claims := by
  unfold checkNbf
  rw [h]

theorem extractSub_num {claims : List (String × JVal)} {n : Int}
    (h : claims.lookup "sub" = some (JVal.num n)) :
    extractSub claims = .ok (goInt64 (dblRound n)) := by
  unfold extractSub
  rw [h]

theorem refresh_get_err {st : Store} {r : String} {f : RefreshFaults} (g : GenInput)
    (now : Int) {e : GoErr} (h : getRefreshToken st r f.getFault = Except.error e) :
    Refresh st r f g now = ((emptyPair, some (.fresh "invalid refresh token")), st) := by
  unfold Refresh
  rw [h]

theorem refresh_get_ok {st : Store} {r : String} {f : RefreshFaults} (g : GenInput)
    (now : Int) {uid ea : Int} (h : getRefreshToken st r f.getFault = Except.ok (uid, ea)) :
    Refresh st r f g now =
      if ea < now then
        ((emptyPair, some (.fresh "refresh token expired")),
          (deleteRefreshToken st r f.delFault).2)
      else generatePair (deleteRefreshToken st r f.delFault).2 uid g now := by
  unfold Refresh
  rw [h]

theorem refresh_not_found (st : Store) (r : String) (f : RefreshFaults) (g : GenInput)
    (now : Int) (h : st.tokens.lookup r = none) :
    Refresh st r f g now = ((emptyPair, some (.fresh "invalid refresh token")), st) := by
  cases hf : f.getFault with
  | true =>
    have hg : getRefreshToken st r f.getFault = .error (.storage "query failed") := by
      unfold getRefreshToken
      rw [hf]
      simp
    exact refresh_get_err g now hg
  | false =>
    have hg : getRefreshToken st r f.getFault = .error .pgNoRows := by
      unfold getRefreshToken
      rw [hf, h]
      simp
    exact refresh_get_err g now hg

theorem generatePair_preserves_absent (st : Store) (uid : Int) (g : GenInput)
    (now : Int) (r : String) (h : st.tokens.lookup r = none)
    (hfresh : ∀ tk, g.refreshRes = Except.ok tk → tk ≠ r) :
    ((generatePair st uid g now).2).tokens.lookup r = none := by
  unfold generatePair
  split
  · exact h
  · split
    · exact h
    · rename_i a heqa tk heqt
      split
      · rename_i e st2 heq
        have hst : st2 = st := by
          unfold saveRefreshToken at heq
          split at heq
          · exact ((Prod.mk.injEq _ _ _ _).mp heq).2.symm
          · split at heq
            · exact ((Prod.mk.injEq _ _ _ _).mp heq).2.symm
            · exact absurd ((Prod.mk.injEq _ _ _ _).mp heq).1 (by simp)
        rw [hst]
        exact h
      · rename_i u st2 heq
        have hst : st2.tokens = st.tokens ++ [(tk, ⟨uid, now + 7 * 24 * 3600⟩)] := by
          unfold saveRefreshToken at heq
          split at heq
          · exact absurd ((Prod.mk.injEq _ _ _ _).mp heq).1 (by simp)
          · split at heq
            · exact absurd ((Prod.mk.injEq _ _ _ _).mp heq).1 (by simp)
            · rw [← ((Prod.mk.injEq _ _ _ _).mp heq).2]
        rw [hst]
        exact lookup_append_none h (lookup_singleton_none (hfresh tk heqt))

theorem refresh_removes (st : Store) (r : String) (f : RefreshFaults) (g : GenInput)
    (now : Int) (hget : f.getFault = false) (hdel : f.delFault = false)
    (hfresh : ∀ tk, g.refreshRes = Except.ok tk → tk ≠ r) :
    ((Refresh st r f g now).2).tokens.lookup r = none := by
  cases hlk : st.tokens.lookup r with
  | none =>
    rw [refresh_not_found st r f g now hlk]
    exact hlk
  | some rec =>
    have hg : getRefreshToken st r f.getFault = .ok (rec.userId, rec.expiresAt) := by
      unfold getRefreshToken
      rw [hget, hlk]
      simp
    rw [refresh_get_ok g now hg]
    have hdelst : (deleteRefreshToken st r f.delFault).2.tokens =
        st.tokens.filter (fun p => p.1 != r) := by
      unfold deleteRefreshToken
      rw [hdel]
      simp
    by_cases hexp : rec.expiresAt < now
    · rw [if_pos hexp]
      show (deleteRefreshToken st r f.delFault).2.tokens.lookup r = none
      rw [hdelst]
      exact lookup_filter_self _ _
    · rw [if_neg hexp]
      apply generatePair_preserves_absent _ _ _ _ _ _ hfresh
      rw [hdelst]
      exact lookup_filter_self _ _

/-! ## The claims -/

/-- Claim C2: the engine consumes a refresh record with a separate
GetRefreshToken read followed by a separate DeleteRefreshToken, so the
interleaving in which both concurrent Refresh(r) calls perform their read
before either performs its delete makes both calls succeed, refuting both
the exactly-one-success property and the single-atomic-operation
consumption the claim asserts. -/
theorem refresh_race_double_success :
    (runTwo ⟨[], [("r", ⟨1, 1000⟩)]⟩ "r" 0 "a1" "n1" "a2" "n2"
        [true, false, true, true, false, false]).p1 =
      RPhase.done ⟨"a1", "n1"⟩ none ∧
    (runTwo ⟨[], [("r", ⟨1, 1000⟩)]⟩ "r" 0 "a1" "n1" "a2" "n2"
        [true, false, true, true, false, false]).p2 =
      RPhase.done ⟨"a2", "n2"⟩ none := by
  exact ⟨rfl, rfl⟩

/-- Claim C3: on an absent token and on an expired token the code returns
two distinct ad hoc errors, neither of which is the refreshTokenNotFound
sentinel of the domain package, so the caller can tell the two cases apart
and the HTTP handler classifies both as internal errors; the expired
record is indeed deleted as a side effect. -/
theorem refresh_absent_vs_expired_errors :
    (Refresh ⟨[], []⟩ "r" ⟨false, false⟩ ⟨.ok "a", .ok "n", false⟩ 10).1 =
      (emptyPair, some (.fresh "invalid refresh token")) ∧
    (Refresh ⟨[], [("r", ⟨1, 5⟩)]⟩ "r" ⟨false, false⟩ ⟨.ok "a", .ok "n", false⟩ 10).1 =
      (emptyPair, some (.fresh "refresh token expired")) ∧
    (Refresh ⟨[], [("r", ⟨1, 5⟩)]⟩ "r" ⟨false, false⟩ ⟨.ok "a", .ok "n", false⟩
        10).2.tokens = [] ∧
    GoErr.fresh "invalid refresh token" ≠ GoErr.fresh "refresh token expired" ∧
    GoErr.fresh "invalid refresh token" ≠ GoErr.refreshTokenNotFound ∧
    GoErr.fresh "refresh token expired" ≠ GoErr.refreshTokenNotFound ∧
    handleError (.fresh "invalid refresh token") = 500 ∧
    handleError (.fresh "refresh token expired") = 500 := by
  refine ⟨rfl, rfl, rfl, by decide, by decide, by decide, rfl, rfl⟩

/-- Claim C8: registering a second user under an already stored email
fails with the raw driver uniqueness-violation error, which is not the
emailExists sentinel and which the HTTP handler classifies exactly like
any other storage error (500, not 409); the stored state is unchanged. -/
theorem register_duplicate_email_raw_error :
    Register (.ok "h2") ⟨[⟨1, "alice", "a@x.com", "h1"⟩], []⟩ "bob" "a@x.com" false =
      (some .pgUniqueViolation, ⟨[⟨1, "alice", "a@x.com", "h1"⟩], []⟩) ∧
    GoErr.pgUniqueViolation ≠ GoErr.emailExists ∧
    handleError .pgUniqueViolation = 500 ∧
    handleError (.storage "connection reset") = 500 ∧
    handleError .emailExists = 409 := by
  refine ⟨rfl, by decide, rfl, rfl, rfl⟩

/-- Claim C9: a token correctly HS256-signed under the service secret
whose payload carries no sub claim drives ValidateToken into the
unchecked type assertion on claims sub, which panics instead of
returning an error. -/
theorem validateToken_panics_on_missing_sub :
    ValidateToken "k" (.wf ⟨.HS256, [("exp", .num 1000)],
        .hmacSig .HS256 "k" [("exp", .num 1000)]⟩) 0 = .panicked := by
  rfl

/-- Claim C4 counterexample: for the subject 2^53 + 1 the sub claim
survives signing exactly but is decoded through float64, which rounds it
to 2^53, so Verify returns a different subject than the one the token was
minted for. -/
theorem verify_roundtrip_large_subject_counterexample :
    ValidateToken "k" (GenerateAccessToken "k" 9007199254740993 900 0) 0 =
      .ok 9007199254740992 ∧ (9007199254740992 : Int) ≠ 9007199254740993 := by
  refine ⟨rfl, by decide⟩

/-- Claim C5 counterexample: a token signed with HS512 under the service
secret is accepted by ValidateToken, although HS512 is not the algorithm
the issuer uses (HS256); the keyfunc accepts the whole HMAC family. -/
theorem validate_accepts_hs512 :
    ValidateToken "k" (.wf ⟨.HS512, [("sub", .num 1), ("exp", .num 1000)],
        .hmacSig .HS512 "k" [("sub", .num 1), ("exp", .num 1000)]⟩) 0 = .ok 1 ∧
    Alg.HS512 ≠ Alg.HS256 := by
  refine ⟨rfl, by decide⟩

/-- Claim C1 counterexample: with a valid record for r in the store, a
first Refresh(r) whose DeleteRefreshToken call fails (the code discards
that error) completes successfully while leaving the record in place, and
a second Refresh(r) afterwards also succeeds, so a completed call does not
make r unusable. -/
theorem refresh_reuse_after_ignored_delete_failure :
    (Refresh ⟨[], [("r", ⟨1, 1000⟩)]⟩ "r" ⟨false, true⟩
        ⟨.ok "a1", .ok "n1", false⟩ 0).1 = (⟨"a1", "n1"⟩, none) ∧
    (Refresh (Refresh ⟨[], [("r", ⟨1, 1000⟩)]⟩ "r" ⟨false, true⟩
        ⟨.ok "a1", .ok "n1", false⟩ 0).2 "r" ⟨false, false⟩
        ⟨.ok "a2", .ok "n2", false⟩ 0).1 = (⟨"a2", "n2"⟩, none) := by
  exact ⟨rfl, rfl⟩

/-- Claim C6: a Login whose email matches no stored user and a Login that
finds a user but fails the password check return the very same error value
(the fresh invalid-credentials error), so the two failure runs are
indistinguishable by the returned error. -/
theorem login_failure_indistinguishable
    (check : String → String → Bool) (st₁ st₂ : Store)
    (e₁ e₂ p₁ p₂ : String) (gf : Bool) (g₁ g₂ : GenInput) (now₁ now₂ : Int) (u : User)
    (h₁ : st₁.users.find? (fun v => v.email == e₁) = none)
    (h₂ : st₂.users.find? (fun v => v.email == e₂) = some u)
    (h₃ : check p₂ u.passwordHash = false) :
    (Login check st₁ e₁ p₁ gf g₁ now₁).1.2 = some (.fresh "invalid credentials") ∧
    (Login check st₂ e₂ p₂ false g₂ now₂).1.2 = some (.fresh "invalid credentials") ∧
    (Login check st₁ e₁ p₁ gf g₁ now₁).1.2 = (Login check st₂ e₂ p₂ false g₂ now₂).1.2 := by
  have hA : (Login check st₁ e₁ p₁ gf g₁ now₁).1.2 =
      some (.fresh "invalid credentials") := by
    unfold Login getByEmail
    cases gf with
    | true => rfl
    | false => simp [h₁]
  have hB : (Login check st₂ e₂ p₂ false g₂ now₂).1.2 =
      some (.fresh "invalid credentials") := by
    unfold Login getByEmail
    simp [h₂, h₃]
  exact ⟨hA, hB, hA.trans hB.symm⟩

/-- Claim C6 witness: a concrete unknown-email run and a concrete
wrong-password run, both rejected with the same error. -/
theorem login_failure_indistinguishable_witness :
    (Login (fun _ _ => false) ⟨[], []⟩ "a@x.com" "pw" false
        ⟨.ok "a", .ok "n", false⟩ 0).1.2 = some (.fresh "invalid credentials") ∧
    (Login (fun _ _ => false) ⟨[⟨1, "alice", "a@x.com", "h"⟩], []⟩ "a@x.com" "pw" false
        ⟨.ok "a", .ok "n", false⟩ 0).1.2 = some (.fresh "invalid credentials") := by
  have h := login_failure_indistinguishable (fun _ _ => false)
    ⟨[], []⟩ ⟨[⟨1, "alice", "a@x.com", "h"⟩], []⟩ "a@x.com" "a@x.com" "pw" "pw" false
    ⟨.ok "a", .ok "n", false⟩ ⟨.ok "a", .ok "n", false⟩ 0 0 ⟨1, "alice", "a@x.com", "h"⟩
    (by rfl) (by rfl) (by rfl)
  exact ⟨h.1, h.2.1⟩

/-- Claim C7: when the SaveRefreshToken persistence step of generatePair
fails (a storage fault or the unique-token constraint), the whole
operation returns the zero pair together with an error and leaves the
store unchanged, so neither the minted access token nor the new refresh
value reaches the caller. -/
theorem generatePair_save_failure_returns_nothing
    (st : Store) (uid : Int) (g : GenInput) (now : Int) (a tk : String)
    (ha : g.accessRes = .ok a) (ht : g.refreshRes = .ok tk)
    (hfail : g.saveFault = true ∨ (st.tokens.lookup tk).isSome = true) :
    (generatePair st uid g now).1.1 = emptyPair ∧
    (generatePair st uid g now).1.2.isSome = true ∧
    (generatePair st uid g now).2 = st := by
  unfold generatePair saveRefreshToken
  rw [ha, ht]
  rcases hfail with hf | hf
  · simp [hf]
  · by_cases hs : g.saveFault = true <;> simp [hs, hf]

/-- Claim C7 witness: a concrete run whose save call faults returns the
zero pair, an error, and the unchanged store. -/
theorem generatePair_save_failure_returns_nothing_witness :
    (generatePair ⟨[], []⟩ 1 ⟨.ok "a", .ok "n", true⟩ 0).1.1 = emptyPair ∧
    (generatePair ⟨[], []⟩ 1 ⟨.ok "a", .ok "n", true⟩ 0).1.2.isSome = true ∧
    (generatePair ⟨[], []⟩ 1 ⟨.ok "a", .ok "n", true⟩ 0).2 = ⟨[], []⟩ :=
  generatePair_save_failure_returns_nothing ⟨[], []⟩ 1 ⟨.ok "a", .ok "n", true⟩ 0 "a" "n"
    rfl rfl (Or.inl rfl)

theorem generatePair_pair_or_no_err (st : Store) (uid : Int) (g : GenInput) (now : Int) :
    (generatePair st uid g now).1.1 = emptyPair ∨ (generatePair st uid g now).1.2 = none := by
  unfold generatePair
  split
  · exact Or.inl rfl
  · split
    · exact Or.inl rfl
    · split
      · exact Or.inl rfl
      · exact Or.inr rfl

theorem login_pair_or_no_err (check : String → String → Bool) (st : Store)
    (email password : String) (gf : Bool) (g : GenInput) (now : Int) :
    (Login check st email password gf g now).1.1 = emptyPair ∨
    (Login check st email password gf g now).1.2 = none := by
  unfold Login
  split
  · exact Or.inl rfl
  · split
    · exact Or.inl rfl
    · exact generatePair_pair_or_no_err _ _ _ _

theorem refresh_pair_or_no_err (st : Store) (r : String) (f : RefreshFaults)
    (g : GenInput) (now : Int) :
    (Refresh st r f g now).1.1 = emptyPair ∨ (Refresh st r f g now).1.2 = none := by
  unfold Refresh
  split
  · exact Or.inl rfl
  · split
    · exact Or.inl rfl
    · exact generatePair_pair_or_no_err _ _ _ _

/-- Claim C10: every error return of Login and of Refresh carries the zero
TokenPair, so no half-minted credential is handed to the caller on
any failure path. -/
theorem error_implies_empty_pair :
    (∀ (check : String → String → Bool) (st : Store) (email password : String)
        (gf : Bool) (g : GenInput) (now : Int),
      (Login check st email password gf g now).1.2 ≠ none →
      (Login check st email password gf g now).1.1 = emptyPair) ∧
    (∀ (st : Store) (r : String) (f : RefreshFaults) (g : GenInput) (now : Int),
      (Refresh st r f g now).1.2 ≠ none →
      (Refresh st r f g now).1.1 = emptyPair) := by
  constructor
  · intro check st email password gf g now h
    rcases login_pair_or_no_err check st email password gf g now with hp | hp
    · exact hp
    · exact absurd hp h
  · intro st r f g now h
    rcases refresh_pair_or_no_err st r f g now with hp | hp
    · exact hp
    · exact absurd hp h

/-- Claim C10 witness: concrete failing Login and Refresh runs whose
returned pair is the zero pair. -/
theorem error_implies_empty_pair_witness :
    (Login (fun _ _ => false) ⟨[], []⟩ "a@x.com" "pw" false
        ⟨.ok "a", .ok "n", false⟩ 0).1.1 = emptyPair ∧
    (Refresh ⟨[], []⟩ "r" ⟨false, false⟩ ⟨.ok "a", .ok "n", false⟩ 0).1.1 = emptyPair := by
  constructor
  · exact error_implies_empty_pair.1 (fun _ _ => false) ⟨[], []⟩ "a@x.com" "pw" false
      ⟨.ok "a", .ok "n", false⟩ 0 (by decide)
  · exact error_implies_empty_pair.2 ⟨[], []⟩ "r" ⟨false, false⟩
      ⟨.ok "a", .ok "n", false⟩ 0 (by decide)

/-- Claim C4 (amended): Verify after issueAccess is the identity on the
subject for every subject identifier and expiry instant of magnitude at
most 2^53 (the integers float64 represents exactly), at every verification
time strictly before the expiry. -/
theorem verify_roundtrip_subject_identity (sk : String) (s ttl now t : Int)
    (hs : s.natAbs ≤ 2 ^ 53) (hexp : (now + ttl).natAbs ≤ 2 ^ 53)
    (ht : t < now + ttl) :
    ValidateToken sk (GenerateAccessToken sk s ttl now) t = .ok s := by
  have hlkExp : List.lookup "exp"
      [("sub", JVal.num s), ("exp", JVal.num (now + ttl)), ("iat", JVal.num now)] =
      some (JVal.num (now + ttl)) := rfl
  have hlkNbf : List.lookup "nbf"
      [("sub", JVal.num s), ("exp", JVal.num (now + ttl)), ("iat", JVal.num now)] =
      (none : Option JVal) := rfl
  have hlkSub : List.lookup "sub"
      [("sub", JVal.num s), ("exp", JVal.num (now + ttl)), ("iat", JVal.num now)] =
      some (JVal.num s) := rfl
  show ValidateToken sk (.wf ⟨.HS256,
      [("sub", JVal.num s), ("exp", JVal.num (now + ttl)), ("iat", JVal.num now)],
      .hmacSig .HS256 sk
        [("sub", JVal.num s), ("exp", JVal.num (now + ttl)), ("iat", JVal.num now)]⟩)
      t = .ok s
  rw [validateToken_signed_exp sk
      ⟨.HS256, [("sub", JVal.num s), ("exp", JVal.num (now + ttl)), ("iat", JVal.num now)],
        .hmacSig .HS256 sk
          [("sub", JVal.num s), ("exp", JVal.num (now + ttl)), ("iat", JVal.num now)]⟩
      t (now + ttl) rfl rfl hlkExp,
    dblRound_of_small hexp]
  have hok : checkNbf
      [("sub", JVal.num s), ("exp", JVal.num (now + ttl)), ("iat", JVal.num now)] t =
      .ok s := by
    rw [checkNbf_no_nbf hlkNbf, extractSub_num hlkSub, dblRound_of_small hs,
      goInt64_of_small hs]
  by_cases hz : now + ttl = 0
  · rw [if_pos hz, hok]
  · rw [if_neg hz, if_neg (by omega), hok]

/-- Claim C4 witness: a concrete small subject round-trips exactly. -/
theorem verify_roundtrip_subject_identity_witness :
    ValidateToken "k" (GenerateAccessToken "k" 42 900 0) 10 = .ok 42 :=
  verify_roundtrip_subject_identity "k" 42 900 0 10 (by norm_num) (by norm_num)
    (by norm_num)

/-- Claim C5 (amended): over well-formed tokens whose numeric exp claim
is at most 2^53 in magnitude (the region where the float64 decode of a
timestamp is exact — real expiry instants lie far below it), ValidateToken
reports expiry exactly when the algorithm is in the HMAC family, the
signature is correct under the service secret, and the exp claim is
nonzero and has passed; a correctly signed token whose exp decodes to 0 is
treated by jwt/v5 as carrying no expiry and is never reported expired, at
any verification time; malformed input, a non-HMAC algorithm, and a wrong
signature are reported invalid.  The amendment forced by the
counterexample: the accepted algorithm set is the whole HMAC family
(HS256, HS384, HS512), not the issuing algorithm HS256 alone. -/
theorem validate_error_kinds (sk : String) (ts : TokenStr) (now : Int) :
    (∀ tok, ts = .wf tok →
      (∀ e, tok.claims.lookup "exp" = some (JVal.num e) → e.natAbs ≤ 2 ^ 53) →
      (ValidateToken sk ts now = .errExpired ↔
        ∃ e, tok.alg.isHMAC = true ∧
          tok.sig = Sig.hmacSig tok.alg sk tok.claims ∧
          tok.claims.lookup "exp" = some (JVal.num e) ∧ e ≠ 0 ∧ e ≤ now)) ∧
    (∀ tok e, ts = .wf tok → tok.claims.lookup "exp" = some (JVal.num e) →
      e = 0 → ∀ t2 : Int, ValidateToken sk ts t2 ≠ .errExpired) ∧
    (∀ tok, ts = .wf tok → tok.alg.isHMAC = false →
      ValidateToken sk ts now = .errInvalid "unexpected signing method") ∧
    (∀ tok, ts = .wf tok → tok.sig ≠ Sig.hmacSig tok.alg sk tok.claims →
      tok.alg.isHMAC = true →
      ValidateToken sk ts now = .errInvalid "signature is invalid") ∧
    (∀ s, ts = .malformed s →
      ValidateToken sk ts now = .errInvalid "token is malformed") := by
  refine ⟨?hiff, ?hzero, ?c2, ?c3, ?c4⟩
  case c2 =>
    intro tok hts halg
    subst hts
    exact validateToken_not_hmac halg
  case c3 =>
    intro tok hts hsig halg
    subst hts
    exact validateToken_bad_sig halg hsig
  case c4 =>
    intro s hts
    subst hts
    exact validateToken_malformed sk s now
  case hzero =>
    intro tok e hts hek hz t2
    subst hts
    subst hz
    cases halg : tok.alg.isHMAC with
    | false =>
      rw [validateToken_not_hmac halg]
      simp
    | true =>
      by_cases hsig : tok.sig = Sig.hmacSig tok.alg sk tok.claims
      · rw [validateToken_signed_exp sk tok t2 0 halg hsig hek,
          if_pos (dblRound_of_small (by decide))]
        exact checkNbf_ne_expired _ _
      · rw [validateToken_bad_sig halg hsig]
        simp
  case hiff =>
    intro tok hts hbound
    subst hts
    constructor
    · intro h
      cases halg : tok.alg.isHMAC with
      | false =>
        rw [validateToken_not_hmac halg] at h
        exact absurd h (by simp)
      | true =>
        by_cases hsig : tok.sig = Sig.hmacSig tok.alg sk tok.claims
        · cases hek : tok.claims.lookup "exp" with
          | none =>
            rw [validateToken_signed_no_exp halg hsig hek] at h
            exact absurd h (checkNbf_ne_expired _ _)
          | some v =>
            cases v with
            | num e =>
              have hde : dblRound e = e := dblRound_of_small (hbound e hek)
              rw [validateToken_signed_exp sk tok now e halg hsig hek, hde] at h
              by_cases hz : e = 0
              · rw [if_pos hz] at h
                exact absurd h (checkNbf_ne_expired _ _)
              · rw [if_neg hz] at h
                by_cases hle : e ≤ now
                · exact ⟨e, rfl, hsig, rfl, hz, hle⟩
                · rw [if_neg hle] at h
                  exact absurd h (checkNbf_ne_expired _ _)
            | str s2 =>
              rw [validateToken_signed_exp_str halg hsig hek] at h
              exact absurd h (by simp)
            | nul =>
              rw [validateToken_signed_exp_nul halg hsig hek] at h
              exact absurd h (by simp)
        · rw [validateToken_bad_sig halg hsig] at h
          exact absurd h (by simp)
    · rintro ⟨e, halg, hsig, hek, hz, hle⟩
      have hde : dblRound e = e := dblRound_of_small (hbound e hek)
      rw [validateToken_signed_exp sk tok now e halg hsig hek, hde, if_neg hz,
        if_pos hle]

/-- Claim C5 witness: a correctly signed HS256 token past its nonzero
expiry is reported expired, a correctly signed token with exp 0 is not
reported expired even at a later time, and a malformed input is invalid,
each by instantiating the theorem. -/
theorem validate_error_kinds_witness :
    ValidateToken "k" (.wf ⟨.HS256, [("sub", JVal.num 1), ("exp", JVal.num 5)],
        .hmacSig .HS256 "k" [("sub", JVal.num 1), ("exp", JVal.num 5)]⟩) 10 =
      .errExpired ∧
    ValidateToken "k" (.wf ⟨.HS256, [("sub", JVal.num 1), ("exp", JVal.num 0)],
        .hmacSig .HS256 "k" [("sub", JVal.num 1), ("exp", JVal.num 0)]⟩) 10 ≠
      .errExpired ∧
    ValidateToken "k" (.malformed "x") 0 = .errInvalid "token is malformed" := by
  refine ⟨?_, ?_, ?_⟩
  · refine ((validate_error_kinds "k" (.wf ⟨.HS256,
        [("sub", JVal.num 1), ("exp", JVal.num 5)],
        .hmacSig .HS256 "k" [("sub", JVal.num 1), ("exp", JVal.num 5)]⟩) 10).1
      ⟨.HS256, [("sub", JVal.num 1), ("exp", JVal.num 5)],
        .hmacSig .HS256 "k" [("sub", JVal.num 1), ("exp", JVal.num 5)]⟩ rfl ?_).mpr
      ⟨5, rfl, rfl, rfl, by decide, by decide⟩
    intro e h
    have h5 : some (JVal.num (5 : Int)) = some (JVal.num e) := by
      rw [← h]
      rfl
    injection h5 with h5
    injection h5 with h5
    subst h5
    decide
  · exact (validate_error_kinds "k" (.wf ⟨.HS256,
        [("sub", JVal.num 1), ("exp", JVal.num 0)],
        .hmacSig .HS256 "k" [("sub", JVal.num 1), ("exp", JVal.num 0)]⟩) 10).2.1
      ⟨.HS256, [("sub", JVal.num 1), ("exp", JVal.num 0)],
        .hmacSig .HS256 "k" [("sub", JVal.num 1), ("exp", JVal.num 0)]⟩ 0 rfl rfl rfl 10
  · exact (validate_error_kinds "k" (.malformed "x") 0).2.2.2.2 "x" rfl

/-- Claim C1 (amended): provided the first Refresh(r) call's read and
delete store operations do not fault and the freshly generated refresh
value differs from r, once that call has completed — whatever its
outcome — the record for r is gone from the store, and every Refresh(r)
run against a store holding no record for r, under any faults and inputs,
fails with the invalid-refresh-token error (the same error as for a value
never issued) and leaves the store unchanged, so no later Refresh(r) can
succeed. -/
theorem refresh_consumption_not_reusable (st : Store) (r : String)
    (f : RefreshFaults) (g : GenInput) (now : Int)
    (hget : f.getFault = false) (hdel : f.delFault = false)
    (hfresh : ∀ tk, g.refreshRes = Except.ok tk → tk ≠ r) :
    ((Refresh st r f g now).2).tokens.lookup r = none ∧
    ∀ (st₂ : Store) (f₂ : RefreshFaults) (g₂ : GenInput) (now₂ : Int),
      st₂.tokens.lookup r = none →
      (Refresh st₂ r f₂ g₂ now₂).1 =
        (emptyPair, some (.fresh "invalid refresh token")) ∧
      (Refresh st₂ r f₂ g₂ now₂).2 = st₂ := by
  refine ⟨refresh_removes st r f g now hget hdel hfresh, ?_⟩
  intro st₂ f₂ g₂ now₂ h
  rw [refresh_not_found st₂ r f₂ g₂ now₂ h]
  exact ⟨rfl, rfl⟩

/-- Claim C1 witness: after a concrete successful Refresh of r the record
for r is gone and the immediately following Refresh of r fails with the
invalid-refresh-token error, by instantiating the theorem. -/
theorem refresh_consumption_not_reusable_witness :
    ((Refresh ⟨[], [("r", ⟨1, 1000⟩)]⟩ "r" ⟨false, false⟩
        ⟨.ok "a1", .ok "n1", false⟩ 0).2).tokens.lookup "r" = none ∧
    (Refresh (Refresh ⟨[], [("r", ⟨1, 1000⟩)]⟩ "r" ⟨false, false⟩
        ⟨.ok "a1", .ok "n1", false⟩ 0).2 "r" ⟨false, false⟩
        ⟨.ok "a2", .ok "n2", false⟩ 5).1 =
      (emptyPair, some (.fresh "invalid refresh token")) := by
  have h := refresh_consumption_not_reusable ⟨[], [("r", ⟨1, 1000⟩)]⟩ "r"
    ⟨false, false⟩ ⟨.ok "a1", .ok "n1", false⟩ 0 rfl rfl
    (by
      intro tk hk
      injection hk with hk
      subst hk
      decide)
  exact ⟨h.1, (h.2 _ ⟨false, false⟩ ⟨.ok "a2", .ok "n2", false⟩ 5 h.1).1⟩

end AuthService
